import Mathlib

/-!
Shallow embedding of the `LogFile` logging utility (src/src/index.ts and
src/src/util.ts) and verification of its specification claims.

Modelling conventions:
* JavaScript strings are Lean `String`s; `String.prototype.replace` with a
  plain-string pattern replaces only the first occurrence, so we implement
  `replaceFirst` accordingly.
* The filesystem is an association list from paths to contents plus a list of
  existing directories.  `writeFileSync` / `appendFileSync` fail (Node throws
  ENOENT) exactly when the parent directory of the target path does not
  exist; failure is modelled with `Option` / `Except`, where the `Except`
  error value carries the mutated-so-far state (JavaScript exceptions leave
  partial field mutations in place).
* The ambient clock (`getDate`, `getTime`, `getDateTime`, `Date.now`,
  `Date.prototype.toString`, `toUTCString`, `toISOString`) is abstracted as
  an `Env` record of the values those calls return during one operation.
* Timers are modelled by boolean "armed" flags; arming/disarming is the only
  state effect of `setInterval` / `clearInterval` visible to the embedding.
-/

namespace LogFileSpec

/-- Replace the first occurrence of `pat` in the character list, mirroring
JavaScript `String.prototype.replace` with a string pattern. -/
def replaceFirstList : List Char → List Char → List Char → List Char
  | [], pat, repl => if pat.isEmpty then repl else []
  | c :: cs, pat, repl =>
    if pat.isPrefixOf (c :: cs) then repl ++ (c :: cs).drop pat.length
    else c :: replaceFirstList cs pat repl

/-- Replace the first occurrence of `pat` in `s` by `repl` (JavaScript
`s.replace(pat, repl)` semantics for string patterns). -/
def replaceFirst (s pat repl : String) : String :=
  ⟨replaceFirstList s.data pat.data repl.data⟩

/-- From src/src/util.ts: append a newline unless the string already ends
with one.  JavaScript `str.endsWith("\n")` holds exactly when the last
character is a newline. -/
def endWithNewLine (str : String) : String :=
  if str.data.getLast? = some '\n' then str else str ++ "\n"

/-- JavaScript `message.replace(/\n|\r|\t/g, "")`: remove every newline,
carriage return and tab (global regex replace). -/
def stripControlChars (m : String) : String :=
  ⟨m.data.filter (fun c => !(c == '\n' || c == '\r' || c == '\t'))⟩

/-- JavaScript `Array.prototype.join(sep)` on a list of strings. -/
def joinWith : List String → String → String
  | [], _ => ""
  | [a], _ => a
  | a :: rest, sep => a ++ sep ++ joinWith rest sep

/-- From src/src/index.ts `levelMap` / `logLevelToString`: numeric level to
its string name, with the `|| "UNKNOWN"` fallback. -/
def logLevelToString (level : Nat) : String :=
  if level = 0 then "DEBUG"
  else if level = 1 then "INFO"
  else if level = 2 then "WARNING"
  else if level = 3 then "ERROR"
  else if level = 4 then "CRITICAL"
  else "UNKNOWN"

/-- Overwrite the binding of `k` in an association list (create it at the
end if absent); model of `writeFileSync` content replacement. -/
def setAssoc : List (String × String) → String → String → List (String × String)
  | [], k, v => [(k, v)]
  | (k', v') :: rest, k, v =>
    if k' = k then (k, v) :: rest else (k', v') :: setAssoc rest k v

/-- Append `v` to the binding of `k` (create the binding if absent); model of
`appendFileSync`, which creates the file when missing. -/
def appendAssoc : List (String × String) → String → String → List (String × String)
  | [], k, v => [(k, v)]
  | (k', v') :: rest, k, v =>
    if k' = k then (k', v' ++ v) :: rest else (k', v') :: appendAssoc rest k v

/-- Look up the content bound to `k`. -/
def lookupA (l : List (String × String)) (k : String) : Option String :=
  (l.find? (fun kv => kv.1 == k)).map Prod.snd

/-- Filesystem model: directories that exist and files with their
contents. -/
structure FS where
  dirs : List String
  files : List (String × String)
deriving DecidableEq

/-- Characters of `p` before its last '/' (the parent directory of a
path). -/
def FS.parent (p : String) : String :=
  match p.data.reverse.dropWhile (fun c => c != '/') with
  | [] => ""
  | _ :: rest => ⟨rest.reverse⟩

/-- Model of `existsSync` on a directory path. -/
def FS.dirExists (fs : FS) (d : String) : Bool :=
  fs.dirs.contains d

/-- Model of Node `fs.readFileSync` as an observation of file content. -/
def FS.readFile (fs : FS) (p : String) : Option String :=
  lookupA fs.files p

/-- Model of `existsSync` on a file path. -/
def FS.fileExists (fs : FS) (p : String) : Bool :=
  (FS.readFile fs p).isSome

/-- Model of `mkdirSync(dir, recursive)`: the directory now exists. -/
def FS.mkdirSync (fs : FS) (d : String) : FS :=
  { fs with dirs := d :: fs.dirs }

/-- Model of `writeFileSync` (create or truncate): fails with ENOENT when
the parent directory does not exist. -/
def FS.writeFileSync (fs : FS) (p c : String) : Option FS :=
  if fs.dirExists (FS.parent p) then
    some { fs with files := setAssoc fs.files p c }
  else none

/-- Model of `appendFileSync` (append, creating the file when missing):
fails with ENOENT when the parent directory does not exist. -/
def FS.appendFileSync (fs : FS) (p c : String) : Option FS :=
  if fs.dirExists (FS.parent p) then
    some { fs with files := appendAssoc fs.files p c }
  else none

/-- Values returned by the ambient clock during one operation:
`getDate()`, `getTime()`, `getDateTime()` from src/src/util.ts, `Date.now()`,
`new Date().toString()`, `new Date().toUTCString()`, and
`new Date().toISOString().substring(0, 10)`. -/
structure Env where
  today : String
  time : String
  dateTime : String
  now : Nat
  nowStr : String
  nowUTCStr : String
  isoDate : String
deriving DecidableEq

/-- Mutable fields of the `LogFile` class (src/src/index.ts lines 60-100,
355-357), with the two interval handles reduced to armed flags. -/
structure LogState where
  date : String := ""
  currentFile : String := ""
  previousFile : String := ""
  logs : List String := []
  dir : String
  fileFormat : String
  logStr : String
  startLog : String
  endLog : String
  rolloverEnabled : Bool
  logToConsole : Bool := false
  logLevel : Nat := 1
  useServerTime : Bool := true
  lastFlushTime : Nat
  bufferSize : Nat := 0
  pushIntervalArmed : Bool := false
  rolloverIntervalArmed : Bool := false
  isStarted : Bool := false
deriving DecidableEq

/-- Combined logger-plus-filesystem state, threaded through operations. -/
abbrev St := LogState × FS

/-- Class constant `BUFFER_SIZE` (line 74): entry-count flush cap. -/
def BUFFER_SIZE : Nat := 1000

/-- Class constant `BUFFER_TIMEOUT` (line 75): flush interval in ms. -/
def BUFFER_TIMEOUT : Nat := 1000

/-- Class field `maxBufferSize` (line 78): byte-estimate flush cap, 16 KB. -/
def maxBufferSize : Nat := 16384

/-- Method `file()` (line 342): path of the current log file. -/
@[reducible] def LogState.file (s : LogState) : String :=
  s.dir ++ "/" ++ s.currentFile

/-- Method `lastFile()` (line 351): path of the previous log file. -/
def LogState.lastFile (s : LogState) : String :=
  s.dir ++ "/" ++ s.previousFile

/-- The `%DATETIME%` substitution used by the banners:
`this.useServerTime ? new Date().toString() : new Date().toUTCString()`. -/
@[reducible] def bannerDateTime (e : Env) (s : LogState) : String :=
  if s.useServerTime then e.nowStr else e.nowUTCStr

/-- Constructor options (src/src/index.ts lines 34-43). -/
structure LogFileOptions where
  logLevel : Option Nat := none
  dir : Option String := none
  fileFormat : Option String := none
  rollover : Option Bool := none
  logToConsole : Option Bool := none
  startLog : Option String := none
  endLog : Option String := none
  logStr : Option String := none

/-- JavaScript `options.x || default` for string options: the default is
used when the option is absent or the empty string (falsy). -/
def orDefault (o : Option String) (d : String) : String :=
  match o with
  | some v => if v = "" then d else v
  | none => d

/-- Default `startLog` banner (constructor, lines 93-95). -/
def defaultStartLog : String :=
  "-----------------------------------------\n" ++
  "------- Log Started: %DATETIME%\n" ++
  "-----------------------------------------\n"

/-- Default `endLog` banner (constructor, lines 97-99). -/
def defaultEndLog : String :=
  "-----------------------------------------\n" ++
  "------- Log Ended: %DATETIME%\n" ++
  "-----------------------------------------\n"

/-- Constructor (lines 86-100).  `lastFlushTime` is initialized to
`Date.now()` by the field initializer on line 76. -/
def mkLogFile (e : Env) (o : LogFileOptions) : LogState :=
  { logLevel := o.logLevel.getD 1
    dir := orDefault o.dir "./logs"
    fileFormat := orDefault o.fileFormat "log-%DATE%.log"
    logToConsole := o.logToConsole.getD false
    rolloverEnabled := o.rollover.getD true
    logStr := orDefault o.logStr "%DATE% %TIME% | %LEVEL% | %MESSAGE%"
    startLog := orDefault o.startLog defaultStartLog
    endLog := orDefault o.endLog defaultEndLog
    lastFlushTime := e.now }

/-- Method `pushLogs` (lines 134-149): flush the buffer to the current file,
a no-op when the buffer is empty or no current file is set; the append
failure is caught (`console.error`), leaving all fields unchanged. -/
def pushLogs (e : Env) (s : LogState) (fs : FS) : St :=
  if s.logs.length < 1 ∨ s.currentFile = "" then (s, fs)
  else
    match FS.appendFileSync fs (LogState.file s) (joinWith s.logs "\n" ++ "\n") with
    | some fs2 => ({ s with logs := [], bufferSize := 0, lastFlushTime := e.now }, fs2)
    | none => (s, fs)

/-- Method `flushSync` (lines 477-491): textually the same body as
`pushLogs`. -/
def flushSync (e : Env) (s : LogState) (fs : FS) : St :=
  if s.logs.length < 1 ∨ s.currentFile = "" then (s, fs)
  else
    match FS.appendFileSync fs (LogState.file s) (joinWith s.logs "\n" ++ "\n") with
    | some fs2 => ({ s with logs := [], bufferSize := 0, lastFlushTime := e.now }, fs2)
    | none => (s, fs)

/-- Method `rollOver` (lines 114-127): if the date changed, update it; when
rollover is enabled, append the end banner to the old file, remember it in
`previousFile`, switch `currentFile` to the new date's name, overwrite the
new file with the start banner, and flush the buffer.  The two unguarded
file operations may throw, carried as `Except.error` with the state mutated
so far. -/
def rollOver (e : Env) (s : LogState) (fs : FS) : Except St St :=
  if e.today = s.date then .ok (s, fs)
  else
    let s1 : LogState := { s with date := e.today }
    if s1.rolloverEnabled then
      match FS.appendFileSync fs (LogState.file s1)
          (endWithNewLine (replaceFirst s1.endLog "%DATETIME%" (bannerDateTime e s1))) with
      | none => .error (s1, fs)
      | some fs2 =>
        let s2 : LogState :=
          { s1 with previousFile := s1.currentFile
                    currentFile := replaceFirst s1.fileFormat "%DATE%" s1.date }
        match FS.writeFileSync fs2 (LogState.file s2)
            (endWithNewLine (replaceFirst s2.startLog "%DATETIME%" (bannerDateTime e s2))) with
        | none => .error (s2, fs2)
        | some fs3 => .ok (pushLogs e s2 fs3)
    else .ok (s1, fs)

/-- Method `addToLogs` (lines 461-471): push the formatted entry, add its
length to `bufferSize`, and flush eagerly when the byte estimate, the entry
count, or the elapsed time reaches its cap. -/
def addToLogs (e : Env) (lg : String) (s : LogState) (fs : FS) : St :=
  let s1 : LogState := { s with logs := s.logs ++ [lg], bufferSize := s.bufferSize + lg.length }
  if maxBufferSize ≤ s1.bufferSize ∨ BUFFER_SIZE ≤ s1.logs.length ∨
      BUFFER_TIMEOUT ≤ e.now - s1.lastFlushTime then
    pushLogs e s1 fs
  else (s1, fs)

/-- Directory creation step of `start` (lines 372-374): ensure the log
directory exists. -/
def startDir (fs : FS) (s : LogState) : FS :=
  if FS.dirExists fs s.dir then fs else FS.mkdirSync fs s.dir

/-- Date and file-name computation of `start` (lines 376-377). -/
def startInitState (e : Env) (s : LogState) : LogState :=
  { s with date := if s.useServerTime then e.today else e.isoDate
           currentFile := replaceFirst s.fileFormat "%DATE%"
             (if s.useServerTime then e.today else e.isoDate) }

/-- The start banner string of `start` (line 379). -/
def startBannerStr (e : Env) (s : LogState) : String :=
  endWithNewLine (replaceFirst s.startLog "%DATETIME%" (bannerDateTime e s))

/-- Banner write of `start` (lines 380-385): create-and-write when the file
does not exist, append when it does. -/
def startWriteBanner (e : Env) (s2 : LogState) (fs1 : FS) : Option FS :=
  if FS.fileExists fs1 (LogState.file s2) then
    FS.appendFileSync fs1 (LogState.file s2) (startBannerStr e s2)
  else
    FS.writeFileSync fs1 (LogState.file s2) (startBannerStr e s2)

/-- Timer arming and `isStarted` marking of `start` (lines 387-391, 414):
the flush timer is always armed; the rollover timer only when rollover is
enabled (otherwise its handle is left as it was). -/
def startFinal (e : Env) (s : LogState) : LogState :=
  { startInitState e s with
      pushIntervalArmed := true
      rolloverIntervalArmed := s.rolloverEnabled || s.rolloverIntervalArmed
      isStarted := true }

/-- Method `start` (lines 367-416): early-return the readiness check when
already started; otherwise create the directory if needed, compute the date
and current file name, write or append the start banner, arm the flush timer
and (when rollover is enabled) the rollover timer, register process hooks
(no immediate state effect), mark started, and report whether the file
exists.  The unguarded banner write may throw. -/
def start (e : Env) (s : LogState) (fs : FS) : Except St (St × Bool) :=
  if s.isStarted then .ok ((s, fs), FS.fileExists fs (LogState.file s))
  else
    match startWriteBanner e (startInitState e s) (startDir fs s) with
    | none => .error (startInitState e s, startDir fs s)
    | some fs2 =>
      .ok ((startFinal e s, fs2), FS.fileExists fs2 (LogState.file (startInitState e s)))

/-- Method `stop` (lines 423-459): success immediately when not started;
otherwise disarm both timers, early-return success when the directory or
current file no longer exists, flush, append the end banner (a throw is
caught and reported as `false`), clear `currentFile`, and mark not
started. -/
def stop (e : Env) (s : LogState) (fs : FS) : St × Bool :=
  if !s.isStarted then ((s, fs), true)
  else
    let s1 : LogState := { s with pushIntervalArmed := false, rolloverIntervalArmed := false }
    if !FS.dirExists fs s1.dir then ((s1, fs), true)
    else if !FS.fileExists fs (LogState.file s1) then ((s1, fs), true)
    else
      match pushLogs e s1 fs with
      | (s2, fs2) =>
        match FS.appendFileSync fs2 (LogState.file s2)
            (endWithNewLine (replaceFirst s2.endLog "%DATETIME%" (bannerDateTime e s2))) with
        | none => ((s2, fs2), false)
        | some fs3 => (({ s2 with currentFile := "", isStarted := false }, fs3), true)

/-- Entry formatting in `log` (lines 511-515): substitute the first
occurrence of each placeholder in `logStr`, in source order, stripping
newlines, carriage returns and tabs from the message. -/
def formatEntry (e : Env) (s : LogState) (message : String) (level : Nat) : String :=
  replaceFirst
    (replaceFirst
      (replaceFirst
        (replaceFirst
          (replaceFirst s.logStr "%DATETIME%" e.dateTime)
          "%DATE%" e.today)
        "%TIME%" e.time)
      "%LEVEL%" (logLevelToString level))
    "%MESSAGE%" (stripControlChars message)

/-- Body of the `try` block of `log` (lines 500-527): implicit `start()` when
no current file is set (its boolean result is discarded, its exceptions
propagate), the below-threshold early return that still runs `rollOver`, and
otherwise format, buffer, optionally echo to console (no state effect), and
run `rollOver`. -/
def logTry (e : Env) (message : String) (level : Nat) (s : LogState) (fs : FS) : Except St St :=
  match (if s.currentFile = "" then Except.map Prod.fst (start e s fs) else .ok (s, fs)) with
  | .error st => .error st
  | .ok (s1, fs1) =>
    if level < s1.logLevel then
      rollOver e s1 fs1
    else
      match addToLogs e (formatEntry e s1 message level) s1 fs1 with
      | (s2, fs2) => rollOver e s2 fs2

/-- Method `log` (lines 500-530): the `try` body followed by `return true`,
with the `catch` converting any exception into `return false` (the partial
mutations made before the throw remain). -/
def log (e : Env) (message : String) (level : Nat) (s : LogState) (fs : FS) : St × Bool :=
  match logTry e message level s fs with
  | .ok st => (st, true)
  | .error st => (st, false)

/-- Method `critical` (lines 586-591): log the space-joined arguments at
level 4, then force a synchronous flush, returning `log`'s result. -/
def critical (e : Env) (msgs : List String) (s : LogState) (fs : FS) : St × Bool :=
  match log e (joinWith msgs " ") 4 s fs with
  | ((s1, fs1), result) => (flushSync e s1 fs1, result)

/-- State reached by a `rollOver` call whether or not it threw. -/
def runState : Except St St → St
  | .ok st => st
  | .error st => st

/-- State reached by a `start` call whether or not it threw. -/
def runStart : Except St (St × Bool) → St
  | .ok (st, _) => st
  | .error st => st

/-- Number of newline characters in a string. -/
def newlineCount (s : String) : Nat :=
  s.data.count '\n'

/-- The byte estimate is exact: `bufferSize` equals the total length of the
buffered entries. -/
def bufferAccurate (s : LogState) : Prop :=
  s.bufferSize = (s.logs.map String.length).sum

/-- Whether `sub` occurs as a contiguous segment of `l`. -/
def hasSeg : List Char → List Char → Bool
  | [], sub => sub.isEmpty
  | c :: rest, sub => sub.isPrefixOf (c :: rest) || hasSeg rest sub

/-- Whether `sub` occurs as a contiguous substring of `s`. -/
def strContains (s sub : String) : Bool :=
  hasSeg s.data sub.data

/-- Sample clock: some moment on 2025-01-01. -/
def envA : Env :=
  { today := "2025-01-01", time := "10:00:00", dateTime := "2025-1-1 10:00:00",
    now := 5000, nowStr := "DS1", nowUTCStr := "DU1", isoDate := "2025-01-01" }

/-- Sample clock: a moment shortly afterwards, on 2025-01-02. -/
def envB : Env :=
  { today := "2025-01-02", time := "00:00:05", dateTime := "2025-1-2 00:00:05",
    now := 5300, nowStr := "DS2", nowUTCStr := "DU2", isoDate := "2025-01-02" }

/-- Sample started logger on 2025-01-01 with an empty buffer and default
templates. -/
def stateA : LogState :=
  { date := "2025-01-01", currentFile := "log-2025-01-01.log", previousFile := "",
    logs := [], dir := "logs", fileFormat := "log-%DATE%.log",
    logStr := "%DATE% %TIME% | %LEVEL% | %MESSAGE%",
    startLog := defaultStartLog, endLog := defaultEndLog,
    rolloverEnabled := true, logToConsole := false, logLevel := 0,
    useServerTime := true, lastFlushTime := 5000, bufferSize := 0,
    pushIntervalArmed := true, rolloverIntervalArmed := true, isStarted := true }

/-- Variant of `stateA` with threshold INFO and one buffered entry. -/
def stateB : LogState :=
  { stateA with logLevel := 1, logs := ["e1"], bufferSize := 2 }

/-- Variant of `stateA` with two buffered entries. -/
def stateC : LogState :=
  { stateA with logs := ["e1", "e2"], bufferSize := 4 }

/-- Sample filesystem holding the 2025-01-01 log file. -/
def fsA : FS :=
  { dirs := ["logs"], files := [("logs/log-2025-01-01.log", "S\n")] }

/-- Filesystem with no directories: every write fails with ENOENT. -/
def fsEmpty : FS :=
  { dirs := [], files := [] }

/-- State after a first `log` call on 2025-01-01 (entry stays buffered). -/
def c1FirstCall : St :=
  (log envA "first" 1 stateA fsA).1

/-- State after a second `log` call once the date has become 2025-01-02. -/
def c1SecondCall : St :=
  (log envB "second" 1 c1FirstCall.1 c1FirstCall.2).1

section AssocLemmas

theorem str_empty_append (v : String) : "" ++ v = v := rfl

theorem lookupA_nil (k : String) : lookupA [] k = none := rfl

theorem lookupA_cons (k' v' : String) (tl : List (String × String)) (k : String) :
    lookupA ((k', v') :: tl) k = if k' = k then some v' else lookupA tl k := by
  unfold lookupA
  by_cases h : k' = k
  · rw [List.find?_cons_of_pos _ (by simp [h])]
    simp [h]
  · rw [List.find?_cons_of_neg _ (by simp [h])]
    simp [h]

theorem lookupA_appendAssoc_self (l : List (String × String)) (k v : String) :
    lookupA (appendAssoc l k v) k = some ((lookupA l k).getD "" ++ v) := by
  induction l with
  | nil => simp [appendAssoc, lookupA_cons, lookupA_nil, str_empty_append]
  | cons hd tl ih =>
    obtain ⟨k', v'⟩ := hd
    by_cases h : k' = k
    · subst h
      simp [appendAssoc, lookupA_cons]
    · simp [appendAssoc, h, lookupA_cons, ih]

theorem lookupA_appendAssoc_ne (l : List (String × String)) (k v q : String) (h : q ≠ k) :
    lookupA (appendAssoc l k v) q = lookupA l q := by
  induction l with
  | nil => simp [appendAssoc, lookupA_cons, lookupA_nil, Ne.symm h]
  | cons hd tl ih =>
    obtain ⟨k', v'⟩ := hd
    by_cases h' : k' = k
    · subst h'
      simp [appendAssoc, lookupA_cons, Ne.symm h]
    · simp [appendAssoc, h', lookupA_cons, ih]

theorem lookupA_setAssoc_self (l : List (String × String)) (k v : String) :
    lookupA (setAssoc l k v) k = some v := by
  induction l with
  | nil => simp [setAssoc, lookupA_cons]
  | cons hd tl ih =>
    obtain ⟨k', v'⟩ := hd
    by_cases h : k' = k
    · subst h
      simp [setAssoc, lookupA_cons]
    · simp [setAssoc, h, lookupA_cons, ih]

theorem lookupA_setAssoc_ne (l : List (String × String)) (k v q : String) (h : q ≠ k) :
    lookupA (setAssoc l k v) q = lookupA l q := by
  induction l with
  | nil => simp [setAssoc, lookupA_cons, lookupA_nil, Ne.symm h]
  | cons hd tl ih =>
    obtain ⟨k', v'⟩ := hd
    by_cases h' : k' = k
    · subst h'
      simp [setAssoc, lookupA_cons, Ne.symm h]
    · simp [setAssoc, h', lookupA_cons, ih]

end AssocLemmas

section FSLemmas

theorem appendFileSync_eq (fs : FS) (p c : String)
    (h : FS.dirExists fs (FS.parent p) = true) :
    FS.appendFileSync fs p c = some { fs with files := appendAssoc fs.files p c } := by
  simp [FS.appendFileSync, h]

theorem writeFileSync_eq (fs : FS) (p c : String)
    (h : FS.dirExists fs (FS.parent p) = true) :
    FS.writeFileSync fs p c = some { fs with files := setAssoc fs.files p c } := by
  simp [FS.writeFileSync, h]

theorem appendFileSync_none (fs : FS) (p c : String)
    (h : FS.dirExists fs (FS.parent p) = false) :
    FS.appendFileSync fs p c = none := by
  simp [FS.appendFileSync, h]

theorem dirs_appendFileSync (fs fs' : FS) (p c : String)
    (h : FS.appendFileSync fs p c = some fs') : fs'.dirs = fs.dirs := by
  unfold FS.appendFileSync at h
  split at h
  · cases h; rfl
  · cases h

theorem dirs_writeFileSync (fs fs' : FS) (p c : String)
    (h : FS.writeFileSync fs p c = some fs') : fs'.dirs = fs.dirs := by
  unfold FS.writeFileSync at h
  split at h
  · cases h; rfl
  · cases h

theorem readFile_appendFileSync_self (fs fs' : FS) (p c : String)
    (h : FS.appendFileSync fs p c = some fs') :
    FS.readFile fs' p = some ((FS.readFile fs p).getD "" ++ c) := by
  unfold FS.appendFileSync at h
  split at h
  · cases h
    simpa [FS.readFile] using lookupA_appendAssoc_self fs.files p c
  · cases h

theorem readFile_appendFileSync_ne (fs fs' : FS) (p c q : String)
    (h : FS.appendFileSync fs p c = some fs') (hq : q ≠ p) :
    FS.readFile fs' q = FS.readFile fs q := by
  unfold FS.appendFileSync at h
  split at h
  · cases h
    simpa [FS.readFile] using lookupA_appendAssoc_ne fs.files p c q hq
  · cases h

theorem readFile_writeFileSync_self (fs fs' : FS) (p c : String)
    (h : FS.writeFileSync fs p c = some fs') :
    FS.readFile fs' p = some c := by
  unfold FS.writeFileSync at h
  split at h
  · cases h
    simpa [FS.readFile] using lookupA_setAssoc_self fs.files p c
  · cases h

theorem readFile_writeFileSync_ne (fs fs' : FS) (p c q : String)
    (h : FS.writeFileSync fs p c = some fs') (hq : q ≠ p) :
    FS.readFile fs' q = FS.readFile fs q := by
  unfold FS.writeFileSync at h
  split at h
  · cases h
    simpa [FS.readFile] using lookupA_setAssoc_ne fs.files p c q hq
  · cases h

end FSLemmas

section FlushLemmas

theorem flushSync_eq_pushLogs (e : Env) (s : LogState) (fs : FS) :
    flushSync e s fs = pushLogs e s fs := rfl

theorem pushLogs_noop (e : Env) (s : LogState) (fs : FS)
    (h : s.logs.length < 1 ∨ s.currentFile = "") :
    pushLogs e s fs = (s, fs) := by
  unfold pushLogs
  rw [if_pos h]

theorem pushLogs_run (e : Env) (s : LogState) (fs fs2 : FS)
    (hlogs : s.logs ≠ []) (hcf : s.currentFile ≠ "")
    (happ : FS.appendFileSync fs (LogState.file s) (joinWith s.logs "\n" ++ "\n") = some fs2) :
    pushLogs e s fs = ({ s with logs := [], bufferSize := 0, lastFlushTime := e.now }, fs2) := by
  have hlen : ¬ (s.logs.length < 1 ∨ s.currentFile = "") := by
    rintro (hl | hc)
    · exact hlogs (List.length_eq_zero.mp (Nat.lt_one_iff.mp hl))
    · exact hcf hc
  unfold pushLogs
  rw [if_neg hlen, happ]

theorem pushLogs_fail (e : Env) (s : LogState) (fs : FS)
    (happ : FS.appendFileSync fs (LogState.file s) (joinWith s.logs "\n" ++ "\n") = none) :
    pushLogs e s fs = (s, fs) := by
  unfold pushLogs
  split
  · rfl
  · rw [happ]

theorem pushLogs_frame (e : Env) (s : LogState) (fs : FS) :
    (pushLogs e s fs).1.date = s.date ∧
    (pushLogs e s fs).1.currentFile = s.currentFile ∧
    (pushLogs e s fs).1.dir = s.dir ∧
    (pushLogs e s fs).1.isStarted = s.isStarted ∧
    (pushLogs e s fs).1.pushIntervalArmed = s.pushIntervalArmed ∧
    (pushLogs e s fs).1.rolloverIntervalArmed = s.rolloverIntervalArmed := by
  unfold pushLogs
  split
  · exact ⟨rfl, rfl, rfl, rfl, rfl, rfl⟩
  · split
    · exact ⟨rfl, rfl, rfl, rfl, rfl, rfl⟩
    · exact ⟨rfl, rfl, rfl, rfl, rfl, rfl⟩

theorem rollOver_same_date (e : Env) (s : LogState) (fs : FS) (hd : e.today = s.date) :
    rollOver e s fs = .ok (s, fs) := by
  unfold rollOver
  rw [if_pos hd]

theorem addToLogs_split (e : Env) (lg : String) (s : LogState) (fs : FS) :
    addToLogs e lg s fs =
      if maxBufferSize ≤ s.bufferSize + lg.length ∨ BUFFER_SIZE ≤ s.logs.length + 1 ∨
          BUFFER_TIMEOUT ≤ e.now - s.lastFlushTime then
        pushLogs e { s with logs := s.logs ++ [lg], bufferSize := s.bufferSize + lg.length } fs
      else
        ({ s with logs := s.logs ++ [lg], bufferSize := s.bufferSize + lg.length }, fs) := by
  unfold addToLogs
  have hlen : (s.logs ++ [lg]).length = s.logs.length + 1 := by simp
  by_cases hc : maxBufferSize ≤ s.bufferSize + lg.length ∨ BUFFER_SIZE ≤ s.logs.length + 1 ∨
      BUFFER_TIMEOUT ≤ e.now - s.lastFlushTime
  · rw [if_pos hc, if_pos (by simpa [hlen] using hc)]
  · rw [if_neg hc, if_neg (by simpa [hlen] using hc)]

theorem addToLogs_frame (e : Env) (lg : String) (s : LogState) (fs : FS) :
    (addToLogs e lg s fs).1.date = s.date ∧
    (addToLogs e lg s fs).1.currentFile = s.currentFile ∧
    (addToLogs e lg s fs).1.dir = s.dir := by
  rw [addToLogs_split]
  split
  · have h := pushLogs_frame e
      { s with logs := s.logs ++ [lg], bufferSize := s.bufferSize + lg.length } fs
    exact ⟨h.1, h.2.1, h.2.2.1⟩
  · exact ⟨rfl, rfl, rfl⟩

theorem logTry_of_some_file (e : Env) (m : String) (lvl : Nat) (s : LogState) (fs : FS)
    (hcf : s.currentFile ≠ "") :
    logTry e m lvl s fs =
      if lvl < s.logLevel then rollOver e s fs
      else
        match addToLogs e (formatEntry e s m lvl) s fs with
        | (s2, fs2) => rollOver e s2 fs2 := by
  unfold logTry
  rw [if_neg hcf]

theorem log_accepted_same_date (e : Env) (m : String) (lvl : Nat) (s : LogState) (fs : FS)
    (hcf : s.currentFile ≠ "") (hlvl : s.logLevel ≤ lvl) (hdate : e.today = s.date) :
    log e m lvl s fs = (addToLogs e (formatEntry e s m lvl) s fs, true) := by
  unfold log
  rw [logTry_of_some_file e m lvl s fs hcf, if_neg (Nat.not_lt.mpr hlvl)]
  rcases h2 : addToLogs e (formatEntry e s m lvl) s fs with ⟨s2, fs2⟩
  have hd2 : e.today = s2.date := by
    have := (addToLogs_frame e (formatEntry e s m lvl) s fs).1
    rw [h2] at this
    rw [this]
    exact hdate
  show (match rollOver e s2 fs2 with
        | Except.ok st => (st, true)
        | Except.error st => (st, false)) = ((s2, fs2), true)
  rw [rollOver_same_date e s2 fs2 hd2]

end FlushLemmas

section InvariantLemmas

theorem bufferAccurate_pushLogs (e : Env) (s : LogState) (fs : FS)
    (h : bufferAccurate s) : bufferAccurate (pushLogs e s fs).1 := by
  unfold pushLogs
  split
  · exact h
  · split
    · show (0 : Nat) = (List.map String.length []).sum
      rfl
    · exact h

theorem bufferAccurate_addToLogs (e : Env) (lg : String) (s : LogState) (fs : FS)
    (h : bufferAccurate s) : bufferAccurate (addToLogs e lg s fs).1 := by
  have h1 : bufferAccurate
      { s with logs := s.logs ++ [lg], bufferSize := s.bufferSize + lg.length } := by
    show s.bufferSize + lg.length = (List.map String.length (s.logs ++ [lg])).sum
    rw [List.map_append, List.sum_append]
    simp [bufferAccurate] at h
    simp [h]
  rw [addToLogs_split]
  split
  · exact bufferAccurate_pushLogs e _ fs h1
  · exact h1

theorem bufferAccurate_rollOver (e : Env) (s : LogState) (fs : FS)
    (h : bufferAccurate s) : bufferAccurate (runState (rollOver e s fs)).1 := by
  unfold rollOver
  split
  · exact h
  · dsimp only
    split
    · split
      · exact h
      · split
        · exact h
        · exact bufferAccurate_pushLogs e _ _ h
    · exact h

theorem bufferAccurate_start (e : Env) (s : LogState) (fs : FS)
    (h : bufferAccurate s) : bufferAccurate (runStart (start e s fs)).1 := by
  unfold start
  split
  · exact h
  · split
    · exact h
    · exact h

theorem bufferAccurate_stop (e : Env) (s : LogState) (fs : FS)
    (h : bufferAccurate s) : bufferAccurate (stop e s fs).1.1 := by
  unfold stop
  split
  · exact h
  · dsimp only
    split
    · exact h
    · split
      · exact h
      · rcases hp : pushLogs e
            { s with pushIntervalArmed := false, rolloverIntervalArmed := false } fs
          with ⟨s3, fs3⟩
        have h3 : bufferAccurate s3 := by
          have := bufferAccurate_pushLogs e
            { s with pushIntervalArmed := false, rolloverIntervalArmed := false } fs h
          rw [hp] at this
          exact this
        split
        · exact h3
        · exact h3

theorem bufferAccurate_logBody (e : Env) (m : String) (lvl : Nat) (s1 : LogState) (fs1 : FS)
    (h1 : bufferAccurate s1) :
    bufferAccurate (runState (if lvl < s1.logLevel then rollOver e s1 fs1
      else
        match addToLogs e (formatEntry e s1 m lvl) s1 fs1 with
        | (s2, fs2) => rollOver e s2 fs2)).1 := by
  split
  · exact bufferAccurate_rollOver e s1 fs1 h1
  · rcases ha : addToLogs e (formatEntry e s1 m lvl) s1 fs1 with ⟨s2, fs2⟩
    have h2 : bufferAccurate s2 := by
      have := bufferAccurate_addToLogs e (formatEntry e s1 m lvl) s1 fs1 h1
      rw [ha] at this
      exact this
    exact bufferAccurate_rollOver e s2 fs2 h2

theorem bufferAccurate_logTry (e : Env) (m : String) (lvl : Nat) (s : LogState) (fs : FS)
    (h : bufferAccurate s) : bufferAccurate (runState (logTry e m lvl s fs)).1 := by
  unfold logTry
  by_cases hcf : s.currentFile = ""
  · rw [if_pos hcf]
    cases hb : start e s fs with
    | error st' =>
      have hs := bufferAccurate_start e s fs h
      rw [hb] at hs
      exact hs
    | ok stb =>
      obtain ⟨⟨s1, fs1⟩, b⟩ := stb
      have hs : bufferAccurate s1 := by
        have := bufferAccurate_start e s fs h
        rw [hb] at this
        exact this
      exact bufferAccurate_logBody e m lvl s1 fs1 hs
  · rw [if_neg hcf]
    exact bufferAccurate_logBody e m lvl s fs h

theorem bufferAccurate_log (e : Env) (m : String) (lvl : Nat) (s : LogState) (fs : FS)
    (h : bufferAccurate s) : bufferAccurate (log e m lvl s fs).1.1 := by
  unfold log
  have hl := bufferAccurate_logTry e m lvl s fs h
  cases hlt : logTry e m lvl s fs with
  | ok st =>
    rw [hlt] at hl
    exact hl
  | error st =>
    rw [hlt] at hl
    exact hl

theorem bufferAccurate_critical (e : Env) (msgs : List String) (s : LogState) (fs : FS)
    (h : bufferAccurate s) : bufferAccurate (critical e msgs s fs).1.1 := by
  unfold critical
  rcases hl : log e (joinWith msgs " ") 4 s fs with ⟨⟨s1, fs1⟩, result⟩
  have h1 : bufferAccurate s1 := by
    have := bufferAccurate_log e (joinWith msgs " ") 4 s fs h
    rw [hl] at this
    exact this
  show bufferAccurate (flushSync e s1 fs1).1
  rw [flushSync_eq_pushLogs]
  exact bufferAccurate_pushLogs e s1 fs1 h1

end InvariantLemmas

section RolloverLemmas

theorem log_accepted_buffers (e : Env) (m : String) (lvl : Nat) (s : LogState) (fs : FS)
    (hcf : s.currentFile ≠ "") (hlvl : s.logLevel ≤ lvl) (hdate : e.today = s.date)
    (hb : s.bufferSize + (formatEntry e s m lvl).length < maxBufferSize)
    (hc : s.logs.length + 1 < BUFFER_SIZE)
    (ht : e.now - s.lastFlushTime < BUFFER_TIMEOUT) :
    log e m lvl s fs =
      (({ s with logs := s.logs ++ [formatEntry e s m lvl],
                 bufferSize := s.bufferSize + (formatEntry e s m lvl).length }, fs), true) := by
  rw [log_accepted_same_date e m lvl s fs hcf hlvl hdate, addToLogs_split,
    if_neg (by push_neg; exact ⟨by omega, by omega, by omega⟩)]

theorem rollOver_enabled_flushes_to_new_file (e : Env) (s : LogState) (fs : FS)
    (hd : e.today ≠ s.date) (hren : s.rolloverEnabled = true)
    (hlogs : s.logs ≠ [])
    (hnewCf : replaceFirst s.fileFormat "%DATE%" e.today ≠ "")
    (hdirOld : FS.dirExists fs (FS.parent (LogState.file s)) = true)
    (hdirNew : FS.dirExists fs
      (FS.parent (s.dir ++ "/" ++ replaceFirst s.fileFormat "%DATE%" e.today)) = true)
    (hne : s.dir ++ "/" ++ replaceFirst s.fileFormat "%DATE%" e.today ≠ LogState.file s) :
    ∃ fsF,
      rollOver e s fs = .ok
        ({ s with date := e.today, previousFile := s.currentFile,
                  currentFile := replaceFirst s.fileFormat "%DATE%" e.today,
                  logs := [], bufferSize := 0, lastFlushTime := e.now }, fsF) ∧
      FS.readFile fsF (LogState.file s) =
        some ((FS.readFile fs (LogState.file s)).getD "" ++
          endWithNewLine (replaceFirst s.endLog "%DATETIME%" (bannerDateTime e s))) ∧
      FS.readFile fsF (s.dir ++ "/" ++ replaceFirst s.fileFormat "%DATE%" e.today) =
        some (endWithNewLine (replaceFirst s.startLog "%DATETIME%" (bannerDateTime e s)) ++
          (joinWith s.logs "\n" ++ "\n")) := by
  obtain ⟨fs3, h3⟩ : ∃ x, FS.appendFileSync fs (LogState.file s)
      (endWithNewLine (replaceFirst s.endLog "%DATETIME%" (bannerDateTime e s))) = some x :=
    ⟨_, appendFileSync_eq fs _ _ hdirOld⟩
  have hdirs3 : fs3.dirs = fs.dirs := dirs_appendFileSync fs fs3 _ _ h3
  have hdirNew3 : FS.dirExists fs3
      (FS.parent (s.dir ++ "/" ++ replaceFirst s.fileFormat "%DATE%" e.today)) = true := by
    show fs3.dirs.contains _ = true
    rw [hdirs3]
    exact hdirNew
  obtain ⟨fs4, h4⟩ : ∃ x, FS.writeFileSync fs3
      (s.dir ++ "/" ++ replaceFirst s.fileFormat "%DATE%" e.today)
      (endWithNewLine (replaceFirst s.startLog "%DATETIME%" (bannerDateTime e s))) = some x :=
    ⟨_, writeFileSync_eq fs3 _ _ hdirNew3⟩
  have hdirs4 : fs4.dirs = fs3.dirs := dirs_writeFileSync fs3 fs4 _ _ h4
  have hdirNew4 : FS.dirExists fs4
      (FS.parent (s.dir ++ "/" ++ replaceFirst s.fileFormat "%DATE%" e.today)) = true := by
    show fs4.dirs.contains _ = true
    rw [hdirs4, hdirs3]
    exact hdirNew
  obtain ⟨fs5, h5⟩ : ∃ x, FS.appendFileSync fs4
      (s.dir ++ "/" ++ replaceFirst s.fileFormat "%DATE%" e.today)
      (joinWith s.logs "\n" ++ "\n") = some x :=
    ⟨_, appendFileSync_eq fs4 _ _ hdirNew4⟩
  refine ⟨fs5, ?_, ?_, ?_⟩
  · unfold rollOver
    rw [if_neg hd]
    dsimp only
    rw [if_pos hren, h3]
    dsimp only
    rw [h4]
    dsimp only
    rw [pushLogs_run e
      { s with date := e.today, previousFile := s.currentFile,
               currentFile := replaceFirst s.fileFormat "%DATE%" e.today }
      fs4 fs5 hlogs hnewCf h5]
  · rw [readFile_appendFileSync_ne fs4 fs5 _ _ _ h5 (Ne.symm hne),
      readFile_writeFileSync_ne fs3 fs4 _ _ _ h4 (Ne.symm hne),
      readFile_appendFileSync_self fs fs3 _ _ h3]
  · rw [readFile_appendFileSync_self fs4 fs5 _ _ h5,
      readFile_writeFileSync_self fs3 fs4 _ _ h4]
    rfl

end RolloverLemmas

section NewlineLemmas

theorem data_append_str (a b : String) : (a ++ b).data = a.data ++ b.data := rfl

theorem newlineCount_append (a b : String) :
    newlineCount (a ++ b) = newlineCount a + newlineCount b := by
  unfold newlineCount
  rw [data_append_str, List.count_append]

theorem newlineCount_joinWith (a : String) (rest : List String)
    (h : ∀ l ∈ a :: rest, newlineCount l = 0) :
    newlineCount (joinWith (a :: rest) "\n" ++ "\n") = (a :: rest).length := by
  induction rest generalizing a with
  | nil =>
    have ha := h a (by simp)
    have h1 : newlineCount "\n" = 1 := rfl
    simp [joinWith, newlineCount_append, ha, h1]
  | cons b rest' ih =>
    have ha := h a (by simp)
    have h' : ∀ l ∈ b :: rest', newlineCount l = 0 := fun l hl => h l (by simp [hl])
    have hrec := ih b h'
    have h1 : newlineCount "\n" = 1 := rfl
    show newlineCount ((a ++ "\n" ++ joinWith (b :: rest') "\n") ++ "\n") = _
    rw [newlineCount_append, newlineCount_append, newlineCount_append, ha, h1]
    rw [newlineCount_append, h1] at hrec
    simp only [List.length_cons] at hrec ⊢
    omega

end NewlineLemmas

section ClaimTheorems

/-- Claim C2: for a started logger with rollover disabled, a rollover check
on a changed date updates only the stored date; `currentFile`,
`previousFile` and every other field are unchanged, no banner is written,
and no file is created (the filesystem is returned untouched). -/
theorem rollOver_disabled_updates_only_date (e : Env) (s : LogState) (fs : FS)
    (_hst : s.isStarted = true) (hren : s.rolloverEnabled = false)
    (hd : e.today ≠ s.date) :
    rollOver e s fs = .ok ({ s with date := e.today }, fs) := by
  unfold rollOver
  rw [if_neg hd]
  simp [hren]

/-- Witness for C2 at a concrete started logger and changed date. -/
theorem rollOver_disabled_updates_only_date_witness :
    rollOver envB { stateA with rolloverEnabled := false } fsA =
      .ok ({ stateA with rolloverEnabled := false, date := "2025-01-02" }, fsA) :=
  rollOver_disabled_updates_only_date envB { stateA with rolloverEnabled := false } fsA
    rfl rfl (by decide)

/-- Claim C10: when the file append inside `pushLogs` or `flushSync` throws,
the exception is caught and `logs`, `bufferSize` and `lastFlushTime` are
left exactly as they were (the whole state and filesystem are returned
unchanged, so the buffered entries remain eligible for the next flush);
both functions are total, modelling that the exception never propagates. -/
theorem flush_failure_leaves_state_unchanged (e : Env) (s : LogState) (fs : FS)
    (hfail : FS.appendFileSync fs (LogState.file s) (joinWith s.logs "\n" ++ "\n") = none) :
    pushLogs e s fs = (s, fs) ∧ flushSync e s fs = (s, fs) := by
  refine ⟨pushLogs_fail e s fs hfail, ?_⟩
  rw [flushSync_eq_pushLogs]
  exact pushLogs_fail e s fs hfail

/-- Witness for C10: a missing directory makes the append fail and both
flush entry points leave the state untouched. -/
theorem flush_failure_leaves_state_unchanged_witness :
    pushLogs envA stateB fsEmpty = (stateB, fsEmpty) ∧
    flushSync envA stateB fsEmpty = (stateB, fsEmpty) :=
  flush_failure_leaves_state_unchanged envA stateB fsEmpty (by decide)

/-- Claim C6: `pushLogs` and `flushSync` are no-ops when the buffer is empty
or no current file is set; otherwise they append the newline-joined block
(with one trailing newline) in a single write to the current file, clear
the buffer, reset the byte estimate and stamp `lastFlushTime`; the block
contains exactly one newline per entry when the entries are
newline-free. -/
theorem flush_joins_and_clears (e : Env) (s : LogState) (fs fs2 : FS) :
    (s.logs.length < 1 ∨ s.currentFile = "" →
      pushLogs e s fs = (s, fs) ∧ flushSync e s fs = (s, fs)) ∧
    (s.logs ≠ [] → s.currentFile ≠ "" →
      FS.appendFileSync fs (LogState.file s) (joinWith s.logs "\n" ++ "\n") = some fs2 →
      pushLogs e s fs = ({ s with logs := [], bufferSize := 0, lastFlushTime := e.now }, fs2) ∧
      flushSync e s fs = pushLogs e s fs ∧
      FS.readFile fs2 (LogState.file s) =
        some ((FS.readFile fs (LogState.file s)).getD "" ++ (joinWith s.logs "\n" ++ "\n")) ∧
      ((∀ l ∈ s.logs, newlineCount l = 0) →
        newlineCount (joinWith s.logs "\n" ++ "\n") = s.logs.length)) := by
  constructor
  · intro h
    exact ⟨pushLogs_noop e s fs h, by rw [flushSync_eq_pushLogs]; exact pushLogs_noop e s fs h⟩
  · intro hlogs hcf happ
    refine ⟨pushLogs_run e s fs fs2 hlogs hcf happ, flushSync_eq_pushLogs e s fs,
      readFile_appendFileSync_self fs fs2 _ _ happ, ?_⟩
    intro hnl
    cases hl : s.logs with
    | nil => exact absurd hl hlogs
    | cons a rest =>
      simp only [hl] at hnl
      exact newlineCount_joinWith a rest hnl

/-- Witness for C6 on a two-entry buffer. -/
theorem flush_joins_and_clears_witness :
    pushLogs envA stateC fsA =
      ({ stateC with logs := [], bufferSize := 0, lastFlushTime := 5000 },
        { dirs := ["logs"], files := [("logs/log-2025-01-01.log", "S\ne1\ne2\n")] }) ∧
    newlineCount (joinWith stateC.logs "\n" ++ "\n") = stateC.logs.length := by
  have h := (flush_joins_and_clears envA stateC fsA
      { dirs := ["logs"], files := [("logs/log-2025-01-01.log", "S\ne1\ne2\n")] }).2
    (by decide) (by decide) (by decide)
  exact ⟨h.1, h.2.2.2 (by decide)⟩

/-- Claim C5: after appending a formatted entry, an eager flush happens if
and only if the updated byte estimate is at least 16384, the updated entry
count is at least 1000, or the elapsed time since `lastFlushTime` is at
least 1000 ms; when no cap is reached the entry remains buffered and the
filesystem is untouched. -/
theorem addToLogs_flush_iff (e : Env) (lg : String) (s : LogState) (fs fs2 : FS)
    (hcf : s.currentFile ≠ "")
    (happ : FS.appendFileSync fs (LogState.file s)
      (joinWith (s.logs ++ [lg]) "\n" ++ "\n") = some fs2) :
    addToLogs e lg s fs =
      if maxBufferSize ≤ s.bufferSize + lg.length ∨ BUFFER_SIZE ≤ s.logs.length + 1 ∨
          BUFFER_TIMEOUT ≤ e.now - s.lastFlushTime then
        ({ s with logs := [], bufferSize := 0, lastFlushTime := e.now }, fs2)
      else
        ({ s with logs := s.logs ++ [lg], bufferSize := s.bufferSize + lg.length }, fs) := by
  rw [addToLogs_split]
  by_cases hc : maxBufferSize ≤ s.bufferSize + lg.length ∨ BUFFER_SIZE ≤ s.logs.length + 1 ∨
      BUFFER_TIMEOUT ≤ e.now - s.lastFlushTime
  · rw [if_pos hc, if_pos hc]
    exact pushLogs_run e _ fs fs2 (by simp) hcf happ
  · rw [if_neg hc, if_neg hc]

/-- Witness for C5: the elapsed-time cap triggers the flush. -/
theorem addToLogs_flush_iff_witness :
    addToLogs envA "e3" { stateC with lastFlushTime := 1000 } fsA =
      ({ stateC with lastFlushTime := envA.now, logs := [], bufferSize := 0 },
        { dirs := ["logs"], files := [("logs/log-2025-01-01.log", "S\ne1\ne2\ne3\n")] }) := by
  have h := addToLogs_flush_iff envA "e3" { stateC with lastFlushTime := 1000 } fsA
    { dirs := ["logs"], files := [("logs/log-2025-01-01.log", "S\ne1\ne2\ne3\n")] }
    (by decide) (by decide)
  rw [h]
  decide

/-- Claim C1 counterexample: rollover enabled, date changed between two
`log` calls, first entry still buffered at the boundary.  The first call's
entry is NOT written to the old file (sealed with only the end banner): the
rollover flush runs after `currentFile` has switched, so the pre-boundary
entry lands in the NEW file. -/
theorem buffered_entry_lands_in_new_file_cex :
    c1FirstCall.1.logs = ["2025-01-01 10:00:00 | INFO | first"] ∧
    c1SecondCall.1.previousFile = "log-2025-01-01.log" ∧
    c1SecondCall.1.currentFile = "log-2025-01-02.log" ∧
    strContains ((FS.readFile c1SecondCall.2 (LogState.lastFile c1SecondCall.1)).getD "")
      "first" = false ∧
    strContains ((FS.readFile c1SecondCall.2 (LogState.file c1SecondCall.1)).getD "")
      "first" = true := by decide

/-- Claim C1 (amended): with rollover enabled, when the date changes between
two accepted `log` calls and no eager flush intervenes, the first call's
entry stays buffered; the second call appends its entry and then rolls over:
the end banner is appended to the old file, the old name is recorded in
`previousFile`, `currentFile` switches to the new date's name, the start
banner overwrites the new file, and the buffer is flushed into the NEW file
— so both entries (including the first call's pre-boundary entry) land in
the newly created file after its start banner, not in the old file. -/
theorem rollover_two_calls (e1 e2 : Env) (s : LogState) (fs : FS) (m1 m2 : String)
    (lvl1 lvl2 : Nat)
    (hcf : s.currentFile ≠ "")
    (hlogs0 : s.logs = []) (hbuf0 : s.bufferSize = 0)
    (hlvl1 : s.logLevel ≤ lvl1) (hlvl2 : s.logLevel ≤ lvl2)
    (hdate1 : e1.today = s.date) (hdate2 : e2.today ≠ s.date)
    (hren : s.rolloverEnabled = true)
    (hb1 : (formatEntry e1 s m1 lvl1).length < maxBufferSize)
    (ht1 : e1.now - s.lastFlushTime < BUFFER_TIMEOUT)
    (hb2 : (formatEntry e1 s m1 lvl1).length + (formatEntry e2 s m2 lvl2).length < maxBufferSize)
    (ht2 : e2.now - s.lastFlushTime < BUFFER_TIMEOUT)
    (hnewCf : replaceFirst s.fileFormat "%DATE%" e2.today ≠ "")
    (hdirOld : FS.dirExists fs (FS.parent (LogState.file s)) = true)
    (hdirNew : FS.dirExists fs
      (FS.parent (s.dir ++ "/" ++ replaceFirst s.fileFormat "%DATE%" e2.today)) = true)
    (hne : s.dir ++ "/" ++ replaceFirst s.fileFormat "%DATE%" e2.today ≠ LogState.file s) :
    ∃ fsF,
      log e1 m1 lvl1 s fs =
        (({ s with logs := [formatEntry e1 s m1 lvl1],
                   bufferSize := (formatEntry e1 s m1 lvl1).length }, fs), true) ∧
      log e2 m2 lvl2
          { s with logs := [formatEntry e1 s m1 lvl1],
                   bufferSize := (formatEntry e1 s m1 lvl1).length } fs =
        (({ s with date := e2.today, previousFile := s.currentFile,
                   currentFile := replaceFirst s.fileFormat "%DATE%" e2.today,
                   logs := [], bufferSize := 0, lastFlushTime := e2.now }, fsF), true) ∧
      FS.readFile fsF (LogState.file s) =
        some ((FS.readFile fs (LogState.file s)).getD "" ++
          endWithNewLine (replaceFirst s.endLog "%DATETIME%" (bannerDateTime e2 s))) ∧
      FS.readFile fsF (s.dir ++ "/" ++ replaceFirst s.fileFormat "%DATE%" e2.today) =
        some (endWithNewLine (replaceFirst s.startLog "%DATETIME%" (bannerDateTime e2 s)) ++
          (joinWith [formatEntry e1 s m1 lvl1, formatEntry e2 s m2 lvl2] "\n" ++ "\n")) := by
  have hb1' : s.bufferSize + (formatEntry e1 s m1 lvl1).length < maxBufferSize := by
    rw [hbuf0]
    omega
  have hc1 : s.logs.length + 1 < BUFFER_SIZE := by
    rw [hlogs0]
    decide
  have hcall1 := log_accepted_buffers e1 m1 lvl1 s fs hcf hlvl1 hdate1 hb1' hc1 ht1
  have hstate1 : ({ s with logs := s.logs ++ [formatEntry e1 s m1 lvl1],
                           bufferSize := s.bufferSize +
                             (formatEntry e1 s m1 lvl1).length } : LogState) =
      { s with logs := [formatEntry e1 s m1 lvl1],
               bufferSize := (formatEntry e1 s m1 lvl1).length } := by
    rw [hlogs0, hbuf0]
    simp
  rw [hstate1] at hcall1
  obtain ⟨fsF, hro, hrOld, hrNew⟩ := rollOver_enabled_flushes_to_new_file e2
    { s with logs := [formatEntry e1 s m1 lvl1, formatEntry e2 s m2 lvl2],
             bufferSize := (formatEntry e1 s m1 lvl1).length +
               (formatEntry e2 s m2 lvl2).length }
    fs hdate2 hren (by simp) hnewCf hdirOld hdirNew hne
  have hcall2 : log e2 m2 lvl2
      { s with logs := [formatEntry e1 s m1 lvl1],
               bufferSize := (formatEntry e1 s m1 lvl1).length } fs =
      (({ s with date := e2.today, previousFile := s.currentFile,
                 currentFile := replaceFirst s.fileFormat "%DATE%" e2.today,
                 logs := [], bufferSize := 0, lastFlushTime := e2.now }, fsF), true) := by
    unfold log
    rw [logTry_of_some_file e2 m2 lvl2
        { s with logs := [formatEntry e1 s m1 lvl1],
                 bufferSize := (formatEntry e1 s m1 lvl1).length } fs hcf,
      if_neg ?hlvlx, addToLogs_split, if_neg ?hnotrig]
    · show (match rollOver e2
          { s with logs := [formatEntry e1 s m1 lvl1, formatEntry e2 s m2 lvl2],
                   bufferSize := (formatEntry e1 s m1 lvl1).length +
                     (formatEntry e2 s m2 lvl2).length }
          fs with
        | Except.ok st => (st, true)
        | Except.error st => (st, false)) = _
      rw [hro]
    case hlvlx =>
      show ¬ lvl2 < s.logLevel
      exact Nat.not_lt.mpr hlvl2
    case hnotrig =>
      push_neg
      refine ⟨?_, ?_, ?_⟩
      · show (formatEntry e1 s m1 lvl1).length + (formatEntry e2 s m2 lvl2).length <
          maxBufferSize
        exact hb2
      · show (1 : Nat) + 1 < BUFFER_SIZE
        decide
      · show e2.now - s.lastFlushTime < BUFFER_TIMEOUT
        exact ht2
  exact ⟨fsF, hcall1, hcall2, hrOld, hrNew⟩

/-- Witness for the amended C1 at concrete states across the 2025-01-01 to
2025-01-02 boundary. -/
theorem rollover_two_calls_witness :
    ∃ fsF,
      log envA "first" 1 stateA fsA =
        (({ stateA with logs := [formatEntry envA stateA "first" 1],
                        bufferSize := (formatEntry envA stateA "first" 1).length },
          fsA), true) ∧
      log envB "second" 1
          { stateA with logs := [formatEntry envA stateA "first" 1],
                        bufferSize := (formatEntry envA stateA "first" 1).length } fsA =
        (({ stateA with date := envB.today, previousFile := stateA.currentFile,
                        currentFile := replaceFirst stateA.fileFormat "%DATE%" envB.today,
                        logs := [], bufferSize := 0, lastFlushTime := envB.now },
          fsF), true) ∧
      FS.readFile fsF (LogState.file stateA) =
        some ((FS.readFile fsA (LogState.file stateA)).getD "" ++
          endWithNewLine (replaceFirst stateA.endLog "%DATETIME%" (bannerDateTime envB stateA))) ∧
      FS.readFile fsF (stateA.dir ++ "/" ++ replaceFirst stateA.fileFormat "%DATE%" envB.today) =
        some (endWithNewLine
            (replaceFirst stateA.startLog "%DATETIME%" (bannerDateTime envB stateA)) ++
          (joinWith [formatEntry envA stateA "first" 1, formatEntry envB stateA "second" 1]
            "\n" ++ "\n")) :=
  rollover_two_calls envA envB stateA fsA "first" "second" 1 1 (by decide) rfl rfl
    (by decide) (by decide) rfl (by decide) rfl (by decide) (by decide) (by decide) (by decide)
    (by decide) (by decide) (by decide) (by decide)

/-- Claim C4 counterexample: a `log` call whose level is strictly below the
threshold can change `bufferSize`: when the date has changed and rollover is
enabled, the rollover check run by the filtered call flushes the buffer,
resetting the estimate from 2 to 0. -/
theorem log_filtered_changes_bufferSize :
    0 < stateB.logLevel ∧ stateB.bufferSize = 2 ∧
    (log envB "m" 0 stateB fsA).1.1.bufferSize = 0 ∧
    (log envB "m" 0 stateB fsA).2 = true := by decide

/-- Claim C4 (amended): a `log` call with level strictly below the
configured threshold never formats the message and never appends to the
buffer itself; it performs exactly the rollover date check and returns true
when that check does not throw (false otherwise).  The rollover check may
itself flush the buffer; when the date is unchanged the whole state is
untouched and the call returns true. -/
theorem log_below_threshold_runs_only_rollover (e : Env) (m : String) (lvl : Nat)
    (s : LogState) (fs : FS) (hcf : s.currentFile ≠ "") (hlvl : lvl < s.logLevel) :
    log e m lvl s fs =
      match rollOver e s fs with
      | .ok st => (st, true)
      | .error st => (st, false) := by
  unfold log
  rw [logTry_of_some_file e m lvl s fs hcf, if_pos hlvl]

/-- Witness for the amended C4 at an unchanged date: the filtered call
leaves the state untouched and returns true. -/
theorem log_below_threshold_runs_only_rollover_witness :
    log envA "m" 0 stateB fsA = ((stateB, fsA), true) := by
  rw [log_below_threshold_runs_only_rollover envA "m" 0 stateB fsA (by decide) (by decide)]
  decide

/-- Claim C3: for a started logger with a non-empty current file (date
unchanged, append succeeding), immediately after `critical` returns the
buffer is empty, the byte estimate is zero, all previously buffered entries
plus the formatted critical entry have been appended to the current file by
the synchronous flush inside the call, and the call returns true. -/
theorem critical_flushes_synchronously (e : Env) (s : LogState) (fs : FS) (msgs : List String)
    (_hst : s.isStarted = true) (hcf : s.currentFile ≠ "")
    (hlvl : s.logLevel ≤ 4) (hdate : e.today = s.date)
    (hdir : FS.dirExists fs (FS.parent (LogState.file s)) = true) :
    (critical e msgs s fs).1.1.logs = [] ∧
    (critical e msgs s fs).1.1.bufferSize = 0 ∧
    FS.readFile (critical e msgs s fs).1.2 (LogState.file s) =
      some ((FS.readFile fs (LogState.file s)).getD "" ++
        (joinWith (s.logs ++ [formatEntry e s (joinWith msgs " ") 4]) "\n" ++ "\n")) ∧
    (critical e msgs s fs).2 = true := by
  obtain ⟨fsX, happ⟩ : ∃ fsX, FS.appendFileSync fs (LogState.file s)
      (joinWith (s.logs ++ [formatEntry e s (joinWith msgs " ") 4]) "\n" ++ "\n") = some fsX :=
    ⟨_, appendFileSync_eq fs _ _ hdir⟩
  have hlog := log_accepted_same_date e (joinWith msgs " ") 4 s fs hcf hlvl hdate
  have hmain : critical e msgs s fs =
      (({ s with logs := [], bufferSize := 0, lastFlushTime := e.now }, fsX), true) := by
    unfold critical
    rw [hlog, addToLogs_split]
    by_cases hc : maxBufferSize ≤ s.bufferSize + (formatEntry e s (joinWith msgs " ") 4).length ∨
        BUFFER_SIZE ≤ s.logs.length + 1 ∨ BUFFER_TIMEOUT ≤ e.now - s.lastFlushTime
    · rw [if_pos hc, pushLogs_run e
        { s with logs := s.logs ++ [formatEntry e s (joinWith msgs " ") 4],
                 bufferSize := s.bufferSize + (formatEntry e s (joinWith msgs " ") 4).length }
        fs fsX (by simp) hcf happ]
      show (flushSync e { s with logs := [], bufferSize := 0, lastFlushTime := e.now } fsX,
        true) = _
      rw [flushSync_eq_pushLogs, pushLogs_noop _ _ _ (Or.inl (by simp))]
    · rw [if_neg hc]
      show (flushSync e
        { s with logs := s.logs ++ [formatEntry e s (joinWith msgs " ") 4],
                 bufferSize := s.bufferSize + (formatEntry e s (joinWith msgs " ") 4).length }
        fs, true) = _
      rw [flushSync_eq_pushLogs, pushLogs_run e
        { s with logs := s.logs ++ [formatEntry e s (joinWith msgs " ") 4],
                 bufferSize := s.bufferSize + (formatEntry e s (joinWith msgs " ") 4).length }
        fs fsX (by simp) hcf happ]
  rw [hmain]
  refine ⟨rfl, rfl, ?_, rfl⟩
  exact readFile_appendFileSync_self fs fsX _ _ happ

/-- Witness for C3 on a concrete started logger. -/
theorem critical_flushes_synchronously_witness :
    (critical envA ["boom"] stateA fsA).1.1.logs = [] ∧
    (critical envA ["boom"] stateA fsA).1.1.bufferSize = 0 ∧
    FS.readFile (critical envA ["boom"] stateA fsA).1.2 (LogState.file stateA) =
      some ((FS.readFile fsA (LogState.file stateA)).getD "" ++
        (joinWith (stateA.logs ++ [formatEntry envA stateA (joinWith ["boom"] " ") 4]) "\n" ++ "\n")) ∧
    (critical envA ["boom"] stateA fsA).2 = true :=
  critical_flushes_synchronously envA stateA fsA ["boom"] rfl (by decide) (by decide) rfl
    (by decide)

/-- Claim C7: `start` on an already-started logger is a no-op returning the
file-existence readiness check, and a successful `start` is idempotent: a
second call changes nothing (no directory creation, no write, no timer
re-arming, no field change) and returns the same readiness result. -/
theorem start_noop_when_started (e e2 : Env) (s : LogState) (fs : FS) (st1 : St) (r : Bool) :
    (s.isStarted = true → start e s fs = .ok ((s, fs), FS.fileExists fs (LogState.file s))) ∧
    (start e s fs = .ok (st1, r) → start e2 st1.1 st1.2 = .ok ((st1.1, st1.2), r)) := by
  constructor
  · intro hst
    unfold start
    rw [if_pos hst]
  · intro h
    by_cases hst : s.isStarted = true
    · unfold start at h
      rw [if_pos hst] at h
      cases h
      unfold start
      rw [if_pos hst]
    · unfold start at h
      rw [if_neg hst] at h
      cases hw : startWriteBanner e (startInitState e s) (startDir fs s) with
      | none =>
        rw [hw] at h
        cases h
      | some fs2 =>
        rw [hw] at h
        cases h
        show start e2 (startFinal e s) fs2 =
          .ok ((startFinal e s, fs2), FS.fileExists fs2 (LogState.file (startInitState e s)))
        unfold start
        rw [if_pos (show (startFinal e s).isStarted = true from rfl)]
        rfl

/-- Witness for C7: two consecutive starts from a fresh logger, then a start
on an already-started logger. -/
theorem start_noop_when_started_witness :
    start envA stateA fsA = .ok ((stateA, fsA), true) ∧
    start envB stateA fsA = .ok ((stateA, fsA), true) := by
  have h := start_noop_when_started envA envB stateA fsA (stateA, fsA) true
  have h1 : start envA stateA fsA = .ok ((stateA, fsA), true) := by
    have hx := h.1 rfl
    rw [show FS.fileExists fsA (LogState.file stateA) = true from by decide] at hx
    exact hx
  exact ⟨h1, h.2 h1⟩

/-- Claim C8 counterexample: `stop` on a started logger whose directory is
missing returns true but leaves `isStarted = true` and `currentFile`
non-empty, so the logger is not fully stopped on that success path. -/
theorem stop_missing_dir_leaves_started :
    (stop envA stateA fsEmpty).2 = true ∧
    (stop envA stateA fsEmpty).1.1.isStarted = true ∧
    (stop envA stateA fsEmpty).1.1.currentFile = "log-2025-01-01.log" := by decide

/-- Claim C8 (amended): `stop` on a started logger disarms both timers in
every path; in the early paths where the directory or the current file no
longer exists it returns true while leaving `currentFile` and `isStarted`
unchanged; in the normal finalization path, whenever it returns true the
logger is fully stopped: `currentFile` is cleared and `isStarted` is
false. -/
theorem stop_success_paths (e : Env) (s : LogState) (fs : FS) (hst : s.isStarted = true) :
    (FS.dirExists fs s.dir = false →
      stop e s fs =
        (({ s with pushIntervalArmed := false, rolloverIntervalArmed := false }, fs), true)) ∧
    (FS.fileExists fs (LogState.file s) = false →
      stop e s fs =
        (({ s with pushIntervalArmed := false, rolloverIntervalArmed := false }, fs), true)) ∧
    (∀ s2 fs2, stop e s fs = ((s2, fs2), true) →
      FS.dirExists fs s.dir = true → FS.fileExists fs (LogState.file s) = true →
      s2.currentFile = "" ∧ s2.isStarted = false ∧
      s2.pushIntervalArmed = false ∧ s2.rolloverIntervalArmed = false) := by
  refine ⟨?_, ?_, ?_⟩
  · intro hdir
    unfold stop
    rw [if_neg (by simp [hst]), if_pos (by simp [hdir])]
  · intro hfile
    unfold stop
    rw [if_neg (by simp [hst])]
    by_cases hdir : FS.dirExists fs s.dir = true
    · rw [if_neg (by simp [hdir]), if_pos (by simp [hfile])]
    · rw [if_pos (by simp [Bool.not_eq_true] at hdir; simp [hdir])]
  · intro s2 fs2 h hdir hfile
    replace h := h.symm
    unfold stop at h
    rw [if_neg (by simp [hst]), if_neg (by simp [hdir]), if_neg (by simp [hfile])] at h
    rcases hp : pushLogs e { s with pushIntervalArmed := false, rolloverIntervalArmed := false } fs
      with ⟨s3, fs3⟩
    rw [hp] at h
    dsimp only at h
    split at h
    · exact absurd (congrArg (fun x => x.2) h) (by simp)
    · have hx := congrArg (fun x => x.1.1) h
      simp only [] at hx
      have hs2 : s2.currentFile = "" ∧ s2.isStarted = false ∧
          s2.pushIntervalArmed = s3.pushIntervalArmed ∧
          s2.rolloverIntervalArmed = s3.rolloverIntervalArmed := by
        rw [hx]
        exact ⟨rfl, rfl, rfl, rfl⟩
      have hf := pushLogs_frame e
        { s with pushIntervalArmed := false, rolloverIntervalArmed := false } fs
      rw [hp] at hf
      exact ⟨hs2.1, hs2.2.1, hs2.2.2.1.trans hf.2.2.2.2.1, hs2.2.2.2.trans hf.2.2.2.2.2⟩

/-- Claim C9: the byte estimate is exact.  A freshly constructed logger
satisfies `bufferSize = total length of buffered entries`, and every
operation preserves it: `addToLogs` adds the entry's length, every flush
resets the estimate to zero together with the buffer, and `rollOver`,
`start`, `stop`, `log` and `critical` preserve the invariant on every path,
including exceptional ones. -/
theorem bufferSize_exact_invariant (e : Env) (o : LogFileOptions) (m lg : String) (lvl : Nat)
    (msgs : List String) (s : LogState) (fs : FS) (h : bufferAccurate s) :
    bufferAccurate (mkLogFile e o) ∧
    bufferAccurate (pushLogs e s fs).1 ∧
    bufferAccurate (flushSync e s fs).1 ∧
    bufferAccurate (addToLogs e lg s fs).1 ∧
    bufferAccurate (runState (rollOver e s fs)).1 ∧
    bufferAccurate (runStart (start e s fs)).1 ∧
    bufferAccurate (stop e s fs).1.1 ∧
    bufferAccurate (log e m lvl s fs).1.1 ∧
    bufferAccurate (critical e msgs s fs).1.1 := by
  refine ⟨rfl, bufferAccurate_pushLogs e s fs h, ?_, bufferAccurate_addToLogs e lg s fs h,
    bufferAccurate_rollOver e s fs h, bufferAccurate_start e s fs h,
    bufferAccurate_stop e s fs h, bufferAccurate_log e m lvl s fs h,
    bufferAccurate_critical e msgs s fs h⟩
  rw [flushSync_eq_pushLogs]
  exact bufferAccurate_pushLogs e s fs h

/-- Witness for C9 at a concrete state with one two-byte buffered entry. -/
theorem bufferSize_exact_invariant_witness :
    bufferAccurate (addToLogs envA "x" stateB fsA).1 ∧
    bufferAccurate (log envA "hello" 2 stateB fsA).1.1 ∧
    bufferAccurate (critical envA ["hello"] stateB fsA).1.1 := by
  have h := bufferSize_exact_invariant envA {} "hello" "x" 2 ["hello"] stateB fsA rfl
  exact ⟨h.2.2.2.1, h.2.2.2.2.2.2.2.1, h.2.2.2.2.2.2.2.2⟩

/-- Witness for the amended C8 on the normal finalization path. -/
theorem stop_success_paths_witness :
    (stop envA stateA fsA).1.1.currentFile = "" ∧
    (stop envA stateA fsA).1.1.isStarted = false := by
  have h2 : (stop envA stateA fsA).2 = true := by decide
  have heq : stop envA stateA fsA =
      (((stop envA stateA fsA).1.1, (stop envA stateA fsA).1.2), true) := by
    rw [← h2]
  have h := (stop_success_paths envA stateA fsA rfl).2.2
    (stop envA stateA fsA).1.1 (stop envA stateA fsA).1.2 heq (by decide) (by decide)
  exact ⟨h.1, h.2.1⟩

end ClaimTheorems

end LogFileSpec
